import Mathlib

/-!
Verification development for the website-design-analyzer scoring and
report-rendering pipeline.

The Python sources are shallowly embedded as follows:

* An HTML page is abstracted as the pair of its raw text and the flat list of
  DOM elements produced by the HTML parser (`Html`); the parser itself
  (BeautifulSoup) is the abstraction boundary.  Each analyzer reads exactly the
  part of this pair that the Python code reads (raw text for
  `analyze_responsive`, the element list for the DOM-based analyzers).
* A raster image is abstracted as the list of its RGB pixels after the
  downscaling step performed by the corresponding Python function; the
  resampling filter of `PIL.Image.resize` is the abstraction boundary.
* Python machine floats are modelled as exact rationals (`ℚ`) and, where the
  code takes a standard deviation or a 2.4-power (`scoring.analyze_image_colors`),
  as reals (`ℝ`).  `int(x)` is truncation towards zero, `round(x, 2)` is
  round-half-to-even at two decimals, exactly as in Python.
-/

/-- Truncation of a rational towards zero, as Python `int()` applied to a
number: `Int.tdiv` truncates towards zero, matching CPython semantics. -/
def pyIntQ (q : ℚ) : ℤ := q.num.tdiv q.den

/-- Truncation of a real towards zero, as Python `int()`:
floor for nonnegative arguments, ceiling for negative ones. -/
noncomputable def pyIntR (x : ℝ) : ℤ := if x < 0 then ⌈x⌉ else ⌊x⌋

/-- Round-half-to-even of a rational, as Python `round(x)` on an exact value. -/
def pyRound (q : ℚ) : ℤ :=
  if q - ⌊q⌋ < 1/2 then ⌊q⌋
  else if q - ⌊q⌋ > 1/2 then ⌊q⌋ + 1
  else if Even ⌊q⌋ then ⌊q⌋ else ⌊q⌋ + 1

/-- Python `round(x, 2)`: round half to even at two decimal places. -/
def pyRound2 (q : ℚ) : ℚ := (pyRound (q * 100) : ℚ) / 100

/-- Auxiliary scanner for `countOcc`: the first argument is the number of
characters still to be skipped because they belong to an occurrence that was
already counted. -/
def countOccGo [DecidableEq α] (needle : List α) : ℕ → List α → ℕ
  | _, [] => 0
  | k+1, _ :: t => countOccGo needle k t
  | 0, h :: t =>
    if needle.isPrefixOf (h :: t) then 1 + countOccGo needle (needle.length - 1) t
    else countOccGo needle 0 t

/-- Number of non-overlapping occurrences of `needle`, scanning left to right
and skipping past each match, as Python `str.count`. -/
def countOcc [DecidableEq α] (needle l : List α) : ℕ := countOccGo needle 0 l

/-- Substring test on character lists, as the Python `in` operator on `str`. -/
def listContains [DecidableEq α] : List α → List α → Bool
  | _, [] => true
  | [], _ :: _ => false
  | h :: t, n :: m => if (n :: m).isPrefixOf (h :: t) then true else listContains t (n :: m)

/-- Lowercasing of a string to a character list, as Python `str.lower` on the
ASCII range used by the heuristics. -/
def lowerData (s : String) : List Char := s.data.map Char.toLower

/-- A DOM element as the analyzers see it: tag name, attribute list, and the
text content (only read for `style` tags). Multi-valued `class` attributes are
kept as their raw space-separated string, which is how the Python code
re-serialises them before substring matching and counting. -/
structure Element where
  tag : String
  attrs : List (String × String)
  text : String
deriving DecidableEq

/-- Value of an attribute, as `Tag.get(name)`: `none` when absent. -/
def Element.attr? (e : Element) (name : String) : Option String :=
  (e.attrs.find? (fun p => p.1 == name)).map (·.2)

/-- Attribute presence, as the CSS selector `[name]` or `find_all(attrs={name: True})`. -/
def Element.hasAttr (e : Element) (name : String) : Bool :=
  e.attrs.any (fun p => p.1 == name)

/-- Value of the `class` attribute as a string, empty when absent. -/
def Element.classStr (e : Element) : String := (e.attr? "class").getD ""

/-- Value of the `style` attribute as a string, empty when absent. -/
def Element.styleStr (e : Element) : String := (e.attr? "style").getD ""

/-- A page as passed to `make_scores`: raw HTML text plus its parsed element
list (`BeautifulSoup(html).find_all(True)` in document order). -/
structure Html where
  raw : String
  elements : List Element

/-- Tag-name test for the regex `^h[1-6]$` used by `analyze_typography`. -/
def isHeadingTag (t : String) : Bool :=
  t == "h1" || t == "h2" || t == "h3" || t == "h4" || t == "h5" || t == "h6"

/-- Typography sub-score of `scoring.analyze_typography`: starts at 50,
h1 gives +10 (else -10), h2 gives +8, headings give 3 points each capped at 20,
elements with an inline `font-size` or a class containing `text-` give 0.5
points each capped at 20; clamped to [0,100]. -/
def analyzeTypographyScore (es : List Element) : ℚ :=
  let headings := (es.filter (fun e => isHeadingTag e.tag)).length
  let h1 := es.any (fun e => e.tag == "h1")
  let h2 := es.any (fun e => e.tag == "h2")
  let inlineSizes := (es.filter (fun e =>
    listContains e.styleStr.data "font-size".data ||
    listContains e.classStr.data "text-".data)).length
  let score : ℚ := 50 + (if h1 then 10 else -10) + (if h2 then 8 else 0)
    + min 20 ((headings : ℚ) * 3) + min 20 ((inlineSizes : ℚ) * (1/2))
  max 0 (min 100 score)

/-- Layout sub-score of `scoring.analyze_layout`:
`clamp(0,100, 40 + min(30, grids*2) + min(30, sections*3))` where `grids`
counts elements whose class contains `grid` or `flex` and `sections` counts
sectioning elements. -/
def analyzeLayoutScore (es : List Element) : ℚ :=
  let grids := (es.filter (fun e =>
    listContains e.classStr.data "grid".data ||
    listContains e.classStr.data "flex".data)).length
  let sections := (es.filter (fun e =>
    e.tag == "section" || e.tag == "article" || e.tag == "main" ||
    e.tag == "nav" || e.tag == "aside" || e.tag == "header" ||
    e.tag == "footer")).length
  max 0 (min 100 (40 + min 30 ((grids : ℚ) * 2) + min 30 ((sections : ℚ) * 3)))

/-- Responsive sub-score of `scoring.analyze_responsive`, computed on the raw
HTML text: `viewport` is the substring test `'viewport' in html.lower()` and
`mdClasses = html.count('md:') + html.count('@media')`. -/
def analyzeResponsiveScore (raw : String) : ℚ :=
  let viewport := listContains (lowerData raw) "viewport".data
  let mdClasses := countOcc "md:".data raw.data + countOcc "@media".data raw.data
  max 0 (min 100 (50 + (if viewport then 25 else -10) + min 35 ((mdClasses : ℚ) * (1/2))))

/-- Accessibility sub-score of `scoring.analyze_accessibility`: `imgs` and
`withAlt` count `img` elements (with a non-empty `alt`, as Python truthiness of
`i.get('alt')`), `aria` counts the elements matching the CSS selector
`[aria-label], [role]` (an element with both attributes counts once), `labels`
counts `label` elements; the float score is truncated by `int()` and clamped. -/
def analyzeAccessibilityScore (es : List Element) : ℤ :=
  let imgs := (es.filter (fun e => e.tag == "img")).length
  let withAlt := (es.filter (fun e =>
    e.tag == "img" && !(((e.attr? "alt").getD "") == ""))).length
  let aria := (es.filter (fun e => e.hasAttr "aria-label" || e.hasAttr "role")).length
  let labels := (es.filter (fun e => e.tag == "label")).length
  let score : ℚ := 40 + min 30 (((withAlt : ℚ) / (max 1 imgs : ℕ)) * 30)
    + min 30 ((aria : ℚ) + (labels : ℚ))
  max 0 (min 100 (pyIntQ score))

/-- Per-category weights, one field per required key of the `weights` mapping
passed to `make_scores` (a missing key would be a `KeyError` in Python; the
structure encodes that all five are present). -/
structure Weights where
  typography : ℚ
  colorContrast : ℚ
  layoutStructure : ℚ
  responsive : ℚ
  accessibility : ℚ

/-- The five sub-scores of the `breakdown` mapping, in its insertion order
Typography, Color & Contrast, Layout & Structure, Responsive, Accessibility. -/
structure Breakdown where
  typography : ℚ
  colorContrast : ℚ
  layoutStructure : ℚ
  responsive : ℚ
  accessibility : ℚ

/-- Recommendation text for Typography below 80. -/
def tipTypography : String :=
  "Improve typographic hierarchy and legibility (ensure clear H1/H2, adequate font sizes, and line-height)."

/-- Recommendation text for Layout & Structure below 80. -/
def tipLayout : String :=
  "Optimize whitespace and layout structure; use semantic sections and consistent spacing."

/-- Recommendation text for Color & Contrast below 80. -/
def tipColor : String :=
  "Increase color contrast and reduce overly similar hues to enhance readability."

/-- Recommendation text for Responsive below 90. -/
def tipResponsive : String :=
  "Add or refine responsive breakpoints and viewport meta for small screens."

/-- Recommendation text for Accessibility below 85. -/
def tipAccessibility : String :=
  "Add ARIA labels, ensure alt text on images, and improve keyboard navigation focus states."

/-- Fallback positive-reinforcement tip when no category is below threshold. -/
def tipFallback : String :=
  "Great job! Minor polish only: audit interactive focus styles and motion preferences."

/-- The `recommendations(breakdown, meta)` function of `scoring.py`: one tip is
appended per category below its threshold, in the fixed order of the source,
and the fallback tip is used when the list would be empty.  The `meta`
argument is accepted, as in the source, and never read. -/
def recommendations (b : Breakdown) (_meta : α) : List String :=
  let tips :=
    (if b.typography < 80 then [tipTypography] else []) ++
    (if b.layoutStructure < 80 then [tipLayout] else []) ++
    (if b.colorContrast < 80 then [tipColor] else []) ++
    (if b.responsive < 90 then [tipResponsive] else []) ++
    (if b.accessibility < 85 then [tipAccessibility] else [])
  if tips = [] then [tipFallback] else tips

/-- Claim-side reading of the recommendation rule: the ordered
(score, threshold, tip) table, filtered to the categories strictly below their
thresholds. -/
def specTriggeredTips (b : Breakdown) : List String :=
  (([(b.typography, 80, tipTypography),
     (b.layoutStructure, 80, tipLayout),
     (b.colorContrast, 80, tipColor),
     (b.responsive, 90, tipResponsive),
     (b.accessibility, 85, tipAccessibility)] :
    List (ℚ × ℚ × String)).filter (fun t => t.1 < t.2.1)).map (·.2.2)

/-- An RGB pixel with channel values 0-255. -/
abbrev RGB := ℕ × ℕ × ℕ

/-- Linearisation of one sRGB channel, as the `np.where` branch of
`scoring._relative_luminance`: for `s = c/255`, `s/12.92` when
`s ≤ 0.03928`, else `((s+0.055)/1.055)^2.4`. -/
noncomputable def linearChannel (c : ℕ) : ℝ :=
  if ((c : ℝ) / 255) ≤ 0.03928 then ((c : ℝ) / 255) / 12.92
  else ((((c : ℝ) / 255) + 0.055) / 1.055) ^ (2.4 : ℝ)

/-- Relative luminance of one pixel, `0.2126*R + 0.7152*G + 0.0722*B` over the
linearised channels, as `scoring._relative_luminance`. -/
noncomputable def relativeLuminance (p : RGB) : ℝ :=
  0.2126 * linearChannel p.1 + 0.7152 * linearChannel p.2.1 + 0.0722 * linearChannel p.2.2

/-- Arithmetic mean of a list of reals, as `np.mean`. -/
noncomputable def npMean (xs : List ℝ) : ℝ := xs.sum / xs.length

/-- Population standard deviation of a list of reals, as `np.std`. -/
noncomputable def npStd (xs : List ℝ) : ℝ :=
  Real.sqrt (((xs.map (fun x => (x - npMean xs) ^ 2)).sum) / xs.length)

/-- Hue channel of the PIL `RGB → HSV` conversion (libImaging `rgb2hsv`,
following `colorsys`), in exact rational arithmetic: the fractional hue is
scaled by 255 and truncated to an integer in 0-255. -/
def pilHue (p : RGB) : ℕ :=
  let r := p.1
  let g := p.2.1
  let b := p.2.2
  let maxc := max r (max g b)
  let minc := min r (min g b)
  if maxc = minc then 0
  else
    let cr : ℚ := (maxc : ℚ) - (minc : ℚ)
    let rc : ℚ := ((maxc : ℚ) - (r : ℚ)) / cr
    let gc : ℚ := ((maxc : ℚ) - (g : ℚ)) / cr
    let bc : ℚ := ((maxc : ℚ) - (b : ℚ)) / cr
    let h : ℚ := if r = maxc then bc - gc else if g = maxc then 2 + rc - bc else 4 + gc - rc
    let hm : ℚ := h / 6 + 1 - (⌊h / 6 + 1⌋ : ℚ)
    (⌊hm * 255⌋).toNat

/-- Index of the `np.histogram(_, bins=12, range=(0,255))` bin receiving hue
value `h`: equal-width bins of width 255/12, the last bin closed on the right. -/
def hueBinIndex (h : ℕ) : ℕ := min 11 (h * 12 / 255)

/-- Number of pixels whose hue falls in histogram bin `i`. -/
def hueBinCount (pixels : List RGB) (i : ℕ) : ℕ :=
  (pixels.filter (fun p => hueBinIndex (pilHue p) = i)).length

/-- Hue-diversity signal of `scoring.analyze_image_colors`:
`(hue_bins > arr.size*0.0005).sum() / 12.0`, where `arr.size` counts the
entries of the H×W×3 array, i.e. three times the pixel count. -/
def hueDiversity (pixels : List RGB) : ℚ :=
  (((List.range 12).filter (fun i =>
    (hueBinCount pixels i : ℚ) > (3 * pixels.length : ℚ) * (5/10000))).length : ℚ) / 12

/-- Contrast signal of `scoring.analyze_image_colors`: the standard deviation
of per-pixel relative luminance of the downscaled image, whose pixel list is
the function argument. -/
noncomputable def imageContrast (pixels : List RGB) : ℝ :=
  npStd (pixels.map relativeLuminance)

/-- The pair returned by `scoring.analyze_image_colors` on the downscaled
pixel list: contrast (luminance standard deviation) and hue diversity. -/
noncomputable def analyzeImageColors (pixels : List RGB) : ℝ × ℚ :=
  (imageContrast pixels, hueDiversity pixels)

/-- Color & Contrast sub-score computed inside `make_scores`:
`int(min(100, max(0, contrast*180 + diversity*40)))`. -/
noncomputable def colorScoreOf (pixels : List RGB) : ℤ :=
  pyIntR (min 100 (max 0 ((analyzeImageColors pixels).1 * 180 + ((analyzeImageColors pixels).2 : ℝ) * 40)))

/-- Result of `make_scores`: the overall integer score and the breakdown
mapping (the diagnostic `meta` mapping carries no score data and is omitted). -/
structure ScoresResult where
  overall : ℤ
  breakdown : Breakdown

/-- The `make_scores(pil_image, html, weights)` aggregator of `scoring.py`:
assembles the five sub-scores and computes
`overall = int(sum(breakdown[k]*weights[k]))` in the insertion order of the
breakdown dict.  The pixel list stands for the image downscaled to width 256
by `analyze_image_colors`. -/
noncomputable def makeScores (pixels : List RGB) (page : Html) (w : Weights) : ScoresResult :=
  let breakdown : Breakdown :=
    { typography := analyzeTypographyScore page.elements
      colorContrast := (colorScoreOf pixels : ℚ)
      layoutStructure := analyzeLayoutScore page.elements
      responsive := analyzeResponsiveScore page.raw
      accessibility := (analyzeAccessibilityScore page.elements : ℚ) }
  { overall := pyIntQ (breakdown.typography * w.typography
      + breakdown.colorContrast * w.colorContrast
      + breakdown.layoutStructure * w.layoutStructure
      + breakdown.responsive * w.responsive
      + breakdown.accessibility * w.accessibility)
    breakdown := breakdown }

/-- ARIA attribute count of `insights.analyze_accessibility`: over every
element, the number of attribute names whose lowercase form starts with
`aria-`. -/
def ariaAttrCount (es : List Element) : ℕ :=
  (es.map (fun e =>
    (e.attrs.filter (fun p => "aria-".data.isPrefixOf (lowerData p.1))).length)).sum

/-- Role count of `insights.analyze_accessibility`: elements carrying a `role`
attribute. -/
def roleCount (es : List Element) : ℕ :=
  (es.filter (fun e => e.hasAttr "role")).length

/-- Label count: `label` elements. -/
def labelCount (es : List Element) : ℕ :=
  (es.filter (fun e => e.tag == "label")).length

/-- Viewport-meta detection of `insights.analyze_responsive`:
a `meta` element whose `name` attribute equals `viewport`. -/
def hasViewportMeta (es : List Element) : Bool :=
  es.any (fun e => e.tag == "meta" && ((e.attr? "name").getD "") == "viewport")

/-- Media-query count of `insights.analyze_responsive`: occurrences of
`@media` in the newline-joined text of all `style` elements. -/
def mediaQueryCount (es : List Element) : ℕ :=
  countOcc "@media".data
    (List.intercalate [Char.ofNat 10] ((es.filter (fun e => e.tag == "style")).map (·.text.data)))

/-- Space-joined class strings of all elements, the `classes` text over which
`insights.analyze_responsive` counts breakpoint prefixes. -/
def joinedClasses (es : List Element) : List Char :=
  List.intercalate [' '] (es.map (·.classStr.data))

/-- Breakpoint-prefix occurrence count of `insights.analyze_responsive`:
`classes.count(bp + ":")`. -/
def twCount (es : List Element) (bp : String) : ℕ :=
  countOcc (bp ++ ":").data (joinedClasses es)

/-- Hint count as the spec reads it for the Responsive score: all `@media`
rules together with the responsive-breakpoint utility-class occurrences across
the standard breakpoint names sm, md, lg, xl, 2xl (the per-name counts of
`insights.analyze_responsive`). -/
def specHintCount (es : List Element) : ℕ :=
  mediaQueryCount es + twCount es "sm" + twCount es "md" + twCount es "lg"
    + twCount es "xl" + twCount es "2xl"

/-- Responsive score as the spec claims it: viewport-meta presence decides
between the +25 and the -10 term, and the hint count is `specHintCount`. -/
def specResponsiveScore (page : Html) : ℚ :=
  max 0 (min 100 (50 + (if hasViewportMeta page.elements then 25 else -10)
    + min 35 ((specHintCount page.elements : ℚ) * (1/2))))

/-- Accessibility score as the spec claims it: rounded instead of truncated,
with the ARIA term counting `aria-`-prefixed attribute names, `role`
attributes and `label` elements separately. -/
def specAccessibilityScore (es : List Element) : ℤ :=
  let imgs := (es.filter (fun e => e.tag == "img")).length
  let withAlt := (es.filter (fun e =>
    e.tag == "img" && !(((e.attr? "alt").getD "") == ""))).length
  max 0 (min 100 (pyRound (40 + min 30 (((withAlt : ℚ) / (max 1 imgs : ℕ)) * 30)
    + min 30 ((ariaAttrCount es + roleCount es + labelCount es : ℕ) : ℚ))))

/-- Color & Contrast score as the spec claims it: rounded instead of
truncated, with the diversity threshold at 0.05% of the pixel count (the code
uses 0.05% of the H×W×3 array size). -/
noncomputable def specColorScore (pixels : List RGB) : ℤ :=
  let diversity : ℚ :=
    (((List.range 12).filter (fun i =>
      (hueBinCount pixels i : ℚ) > (pixels.length : ℚ) * (5/10000))).length : ℚ) / 12
  max 0 (min 100 (round (imageContrast pixels * 180 + (diversity : ℝ) * 40)))

/-- One palette entry: hex string, percentage share, RGB triple. -/
structure PaletteEntry where
  hex : String
  pct : ℚ
  rgb : RGB
deriving DecidableEq

/-- Uppercase hexadecimal digit. -/
def hexDigit (n : ℕ) : Char := if n < 10 then Char.ofNat (48 + n) else Char.ofNat (55 + n)

/-- Two-digit uppercase hex of a byte, as the format `{:02X}` on the
byte-valued channels produced by the image. -/
def byteHex (n : ℕ) : List Char := [hexDigit (n / 16 % 16), hexDigit (n % 16)]

/-- The `palette._rgb_to_hex` formatter `#RRGGBB`. -/
def rgbToHex (p : RGB) : String :=
  ⟨'#' :: (byteHex p.1 ++ byteHex p.2.1 ++ byteHex p.2.2)⟩

/-- Auxiliary for `firstSeen`, carrying the set of already-seen values. -/
def firstSeenGo [DecidableEq α] (seen : List α) : List α → List α
  | [] => []
  | h :: t => if h ∈ seen then firstSeenGo seen t else h :: firstSeenGo (h :: seen) t

/-- Distinct values of a list in first-occurrence order: the key order of a
Python `Counter` (dict insertion order). -/
def firstSeen [DecidableEq α] (l : List α) : List α := firstSeenGo [] l

/-- Stable insertion into a list sorted by strictly decreasing count: the new
element goes before the first element of smaller-or-equal count, so that among
equal counts the earlier-inserted (first-seen) value stays first. -/
def insertByCountDesc (cnt : RGB → ℕ) (x : RGB) : List RGB → List RGB
  | [] => [x]
  | y :: t => if cnt y ≤ cnt x then x :: y :: t else y :: insertByCountDesc cnt x t

/-- Stable sort by decreasing count (insertion sort), extensionally the
behaviour of Python `sorted(..., key=count, reverse=True)`, which keeps
first-seen order among equal counts. -/
def sortByCountDesc (cnt : RGB → ℕ) : List RGB → List RGB
  | [] => []
  | x :: t => insertByCountDesc cnt x (sortByCountDesc cnt t)

/-- The colors of `Counter(l).most_common(n)`: distinct colors in first-seen
order, stably sorted by decreasing multiplicity, first `n` kept. -/
def mostCommon (l : List RGB) (n : ℕ) : List RGB :=
  (sortByCountDesc (fun c => l.count c) (firstSeen l)).take n

/-- Saturation and value of a pixel as `palette._top_saturated` computes them
with numpy: `v = max(r,g,b)`, `s = (v - min + 1e-8) / (v + 1e-8)` on channels
scaled to [0,1]. -/
def satSV (p : RGB) : ℚ × ℚ :=
  let r : ℚ := (p.1 : ℚ) / 255
  let g : ℚ := (p.2.1 : ℚ) / 255
  let b : ℚ := (p.2.2 : ℚ) / 255
  let v := max r (max g b)
  let minc := min r (min g b)
  ((v - minc + 1/100000000) / (v + 1/100000000), v)

/-- The `palette._top_saturated` pass on the pixels of the image it downscales
to longest side 600: keep pixels with saturation and value above the
thresholds, then up to `k` of the 50 most frequent such colors, with a
synthetic 0.0% share. -/
def topSaturated (pixels : List RGB) (k : ℕ) (satThr valMin : ℚ) : List PaletteEntry :=
  let good := pixels.filter (fun p => satThr ≤ (satSV p).1 && valMin ≤ (satSV p).2)
  ((mostCommon good 50).take k).map (fun rgb => { hex := rgbToHex rgb, pct := 0, rgb := rgb })

/-- Saturation and value as `palette._edge_accent_colors` computes them:
here the numerator has no epsilon, `s = (v - min) / (v + 1e-8)`. -/
def edgeSV (p : RGB) : ℚ × ℚ :=
  let r : ℚ := (p.1 : ℚ) / 255
  let g : ℚ := (p.2.1 : ℚ) / 255
  let b : ℚ := (p.2.2 : ℚ) / 255
  let v := max r (max g b)
  let minc := min r (min g b)
  ((v - minc) / (v + 1/100000000), v)

/-- The `palette._edge_accent_colors` pass, taking as input the pixels
selected by the Sobel top-gradient mask (the edge filter itself, a `skimage`
call, is the abstraction boundary; when it is unavailable the input list is
empty): filter by saturation and value, then up to `k` of the 50 most
frequent colors, with a synthetic 0.0% share. -/
def edgeAccentColors (edgePixels : List RGB) (k : ℕ) (satThr valMin : ℚ) : List PaletteEntry :=
  let good := edgePixels.filter (fun p => satThr ≤ (edgeSV p).1 && valMin ≤ (edgeSV p).2)
  ((mostCommon good 50).take k).map (fun rgb => { hex := rgbToHex rgb, pct := 0, rgb := rgb })

/-- The dominant pass of `palette.extract_palette` on the quantized pixel list
(adaptive-palette quantization by PIL is the abstraction boundary): among the
`maxColors` most frequent colors, keep those whose population percentage is at
least `minPercent`, with the percentage rounded to two decimals. -/
def dominantPass (quantPixels : List RGB) (maxColors : ℕ) (minPercent : ℚ) : List PaletteEntry :=
  (mostCommon quantPixels maxColors).filterMap (fun rgb =>
    let pct : ℚ := ((quantPixels.count rgb : ℚ) / (quantPixels.length : ℚ)) * 100
    if minPercent ≤ pct then some { hex := rgbToHex rgb, pct := pyRound2 pct, rgb := rgb }
    else none)

/-- Auxiliary for `dedupByHex`, carrying the `seen` set of hex strings of the
Python merge loop. -/
def dedupByHexGo (seen : List String) : List PaletteEntry → List PaletteEntry
  | [] => []
  | e :: t =>
    if e.hex ∈ seen then dedupByHexGo seen t
    else e :: dedupByHexGo (e.hex :: seen) t

/-- The merge loop of `palette.extract_palette`: keep each hex only at its
first occurrence, preserving order. -/
def dedupByHex (l : List PaletteEntry) : List PaletteEntry := dedupByHexGo [] l

/-- The `palette.extract_palette` pipeline after the image-processing
abstraction boundaries: `quantPixels` are the pixels of the 768-downscaled
image after adaptive quantization to `maxColors` colors, `satPixels` the
pixels seen by the saturated pass, `edgePixels` the pixels kept by the Sobel
edge mask.  Dominant, saturated (thresholds 0.48/0.24, k=8) and edge
(thresholds 0.42/0.22, k=10) entries are merged with first-seen-hex dedup; if
that merge is empty and the quantized Counter is not, the first color of the
Counter is returned at 100.0%; the result is capped at 28 entries. -/
def extractPalette (quantPixels satPixels edgePixels : List RGB)
    (maxColors : ℕ) (minPercent : ℚ) : List PaletteEntry :=
  let dominant := dominantPass quantPixels maxColors minPercent
  let sat := topSaturated satPixels 8 (48/100) (24/100)
  let edge := edgeAccentColors edgePixels 10 (42/100) (22/100)
  let merged := dedupByHex (dominant ++ sat ++ edge)
  let out :=
    if merged = [] ∧ quantPixels ≠ [] then
      [{ hex := rgbToHex (firstSeen quantPixels).headI, pct := 100,
         rgb := (firstSeen quantPixels).headI }]
    else merged
  out.take 28

/-- One point (71.999...) per millimetre unit of `reportlab.lib.units.mm`:
72/25.4 points, the exact rational 360/127. -/
def mmPt : ℚ := 360 / 127

/-- A4 page width in points, as `reportlab.lib.pagesizes.A4`. -/
def pageW : ℚ := 210 * mmPt

/-- A4 page height in points. -/
def pageH : ℚ := 297 * mmPt

/-- The 14 mm page margin of `report.py`. -/
def marginPt : ℚ := 14 * mmPt

/-- The 6 mm line height of `report.py`. -/
def lineHPt : ℚ := 6 * mmPt

/-- One drawn slice of the screenshot: whether it starts a new page (with the
repeated header drawn by `_draw_header`) and its height in points. -/
structure SliceEvent where
  newPage : Bool
  hPts : ℚ
deriving DecidableEq

/-- Pixel heights of the successive slices of the `while y_px < img_h` loop of
`report._draw_screenshot_sliced`: each slice takes `min slice_h_px` of the
remaining pixel height. -/
def sliceChunks (sliceHpx : ℕ) (imgH : ℕ) : List ℕ :=
  if h : imgH = 0 ∨ sliceHpx = 0 then []
  else (min sliceHpx imgH) :: sliceChunks sliceHpx (imgH - min sliceHpx imgH)
termination_by imgH
decreasing_by
  simp only [not_or] at h
  have h1 : 1 ≤ min sliceHpx imgH := by omega
  omega

/-- Pagination behaviour of `report._draw_screenshot_sliced` (drawing
coordinates and JPEG re-encoding are not modelled; only which slices are drawn
and which of them start a fresh page with a repeated header): the screenshot
is scaled to the usable width; if the scaled height fits the available room
(plus the 0.1 pt tolerance) it is drawn once, otherwise it is cut into slices
of `max(1, int(slice_h_pts / scale))` source pixels where `slice_h_pts` is the
first-page room (the function is called with `first_page=True`), the first
slice staying on the current page and every later slice starting a new page
with a repeated header. -/
def drawScreenshotSliced (imgW imgH : ℕ) (topFreePx : ℚ) (firstPage : Bool) : List SliceEvent :=
  let usableW := pageW - 2 * marginPt
  let usableH := pageH - 2 * marginPt
  let scale := usableW / (imgW : ℚ)
  let scaledH := (imgH : ℚ) * scale
  let firstPageRoom := if firstPage then usableH - topFreePx else usableH
  if scaledH ≤ firstPageRoom + 1/10 then [{ newPage := false, hPts := scaledH }]
  else
    let sliceHpts := max 1 (if firstPage then usableH - topFreePx else usableH)
    let sliceHpx := (max 1 (pyIntQ (sliceHpts / scale))).toNat
    (sliceChunks sliceHpx imgH).enum.map
      (fun ie => { newPage := decide (ie.1 ≠ 0), hPts := (ie.2 : ℚ) * scale })

/-- Vertical space consumed above the screenshot on page 1 of
`report.build_pdf`: the 18 mm header block, one `LINE_H` for the URL line and
8 pt for the title line, so `top_used = 18mm + 6mm + 8pt`. -/
def buildPdfTopUsed : ℚ := 18 * mmPt + lineHPt + 8

/-- Truncation agrees with the floor on nonnegative rationals. -/
theorem pyIntQ_eq_floor (q : ℚ) (h : 0 ≤ q) : pyIntQ q = ⌊q⌋ := by
  rw [pyIntQ, Int.tdiv_eq_ediv (Rat.num_nonneg.mpr h) (by positivity)]
  conv_rhs => rw [← Rat.num_div_den q]
  rw [Rat.floor_intCast_div_natCast]

/-- Clamping to [0,100] is monotone. -/
theorem clamp_mono {a b : ℚ} (h : a ≤ b) : max 0 (min 100 a) ≤ max 0 (min 100 b) :=
  max_le_max le_rfl (min_le_min le_rfl h)

/-- C10: the tip list returned by `recommendations` depends only on the
breakdown scores; two calls with the same breakdown and any two meta
arguments return the same list, because the function never reads `meta`. -/
theorem recommendations_meta_noninterference {α : Type} (b : Breakdown) (m₁ m₂ : α) :
    recommendations b m₁ = recommendations b m₂ := rfl

/-- C5: for every breakdown, `recommendations` returns exactly one tip per
category strictly below its threshold (Typography, Layout & Structure and
Color & Contrast below 80, Responsive below 90, Accessibility below 85), in
the fixed category order of `specTriggeredTips`; when no category is below
threshold it returns exactly the one positive-reinforcement tip; hence the
result is never empty. -/
theorem recommendations_spec {α : Type} (b : Breakdown) (m : α) :
    recommendations b m =
      (if specTriggeredTips b = [] then [tipFallback] else specTriggeredTips b) ∧
    recommendations b m ≠ [] := by
  by_cases h1 : b.typography < 80 <;>
  by_cases h2 : b.layoutStructure < 80 <;>
  by_cases h3 : b.colorContrast < 80 <;>
  by_cases h4 : b.responsive < 90 <;>
  by_cases h5 : b.accessibility < 85 <;>
  simp [recommendations, specTriggeredTips, h1, h2, h3, h4, h5, tipFallback,
    tipTypography, tipLayout, tipColor, tipResponsive, tipAccessibility]

/-- C6: on HTML with no `h1` element, adding an `h1` element anywhere (all
other content unchanged) never decreases the Typography sub-score: the h1 term
switches from -10 to +10 and the heading and inline-size counts can only
grow. -/
theorem typography_h1_monotone (pre post : List Element) (e : Element)
    (htag : e.tag = "h1")
    (hno : ((pre ++ post).any (fun x => x.tag == "h1")) = false) :
    analyzeTypographyScore (pre ++ post) ≤ analyzeTypographyScore (pre ++ e :: post) := by
  have hsub : (pre ++ post).Sublist (pre ++ e :: post) :=
    (List.sublist_cons_self e post).append_left pre
  have hcount : ∀ p : Element → Bool,
      (((pre ++ post).filter p).length : ℚ) ≤ (((pre ++ e :: post).filter p).length : ℚ) :=
    fun p => Nat.cast_le.mpr (hsub.filter p).length_le
  have hh1 : ((pre ++ e :: post).any (fun x => x.tag == "h1")) = true := by
    simp only [List.any_append, List.any_cons, htag]
    simp
  have hh2 : ((pre ++ e :: post).any (fun x => x.tag == "h2")) =
      ((pre ++ post).any (fun x => x.tag == "h2")) := by
    simp only [List.any_append, List.any_cons, htag]
    simp
  simp only [analyzeTypographyScore, hno, hh1, hh2, if_true, if_false]
  apply clamp_mono
  have t1 : (-10 : ℚ) ≤ 10 := by norm_num
  have t3 := min_le_min (le_refl (20 : ℚ))
    (mul_le_mul_of_nonneg_right (hcount (fun e => isHeadingTag e.tag)) (by norm_num : (0:ℚ) ≤ 3))
  have t4 := min_le_min (le_refl (20 : ℚ))
    (mul_le_mul_of_nonneg_right
      (hcount (fun e => listContains e.styleStr.data "font-size".data ||
        listContains e.classStr.data "text-".data)) (by norm_num : (0:ℚ) ≤ 1/2))
  exact add_le_add (add_le_add (add_le_add (add_le_add le_rfl t1) le_rfl) t3) t4

/-- Witness for the h1-monotonicity theorem at the empty page and a bare
`h1` element. -/
theorem typography_h1_monotone_witness :
    (Element.mk "h1" [] "").tag = "h1" ∧
    ((([] : List Element) ++ []).any (fun x => x.tag == "h1")) = false ∧
    analyzeTypographyScore ([] ++ []) ≤
      analyzeTypographyScore ([] ++ Element.mk "h1" [] "" :: []) :=
  ⟨rfl, rfl, typography_h1_monotone [] [] (Element.mk "h1" [] "") rfl rfl⟩

/-- The merge loop keeps a subsequence of its input. -/
theorem dedupByHexGo_sublist (seen : List String) (l : List PaletteEntry) :
    (dedupByHexGo seen l).Sublist l := by
  induction l generalizing seen with
  | nil => simp [dedupByHexGo]
  | cons e t ih =>
    rw [dedupByHexGo]
    split
    · exact (ih seen).trans (List.sublist_cons_self e t)
    · exact (ih (e.hex :: seen)).cons₂ e

/-- No entry surviving the merge loop has a hex that was already seen, and
the surviving hexes are pairwise distinct. -/
theorem dedupByHexGo_nodup (seen : List String) (l : List PaletteEntry) :
    (∀ e ∈ dedupByHexGo seen l, e.hex ∉ seen) ∧
      ((dedupByHexGo seen l).map (·.hex)).Nodup := by
  induction l generalizing seen with
  | nil => simp [dedupByHexGo]
  | cons e t ih =>
    rw [dedupByHexGo]
    split
    · exact ih seen
    · refine ⟨?_, ?_⟩
      · intro x hx
        rcases List.mem_cons.mp hx with rfl | hx
        · assumption
        · have := (ih (e.hex :: seen)).1 x hx
          exact fun hs => this (List.mem_cons_of_mem _ hs)
      · simp only [List.map_cons, List.nodup_cons]
        refine ⟨?_, (ih (e.hex :: seen)).2⟩
        intro hmem
        rcases List.mem_map.mp hmem with ⟨x, hx, hhex⟩
        exact (ih (e.hex :: seen)).1 x hx (hhex ▸ List.mem_cons_self _ _)

/-- C7: for every quantized, saturated-pass and edge-pass input and every
maxColors/minPercent configuration, the palette has at most 28 entries, its
hex values are pairwise distinct, and it is either an order-preserving
selection of the dominant-pass entries followed by the saturated-pass entries
followed by the edge-pass entries (first-seen order), or - in the empty-merge
fallback - a single 100% entry. -/
theorem extractPalette_invariants (qp sp ep : List RGB) (mc : ℕ) (mp : ℚ) :
    (extractPalette qp sp ep mc mp).length ≤ 28 ∧
    ((extractPalette qp sp ep mc mp).map (·.hex)).Nodup ∧
    ((extractPalette qp sp ep mc mp).Sublist
      (dominantPass qp mc mp ++ topSaturated sp 8 (48/100) (24/100)
        ++ edgeAccentColors ep 10 (42/100) (22/100)) ∨
      ∃ p, extractPalette qp sp ep mc mp = [⟨rgbToHex p, 100, p⟩]) := by
  have hsrc : extractPalette qp sp ep mc mp =
      (if dedupByHex (dominantPass qp mc mp ++ topSaturated sp 8 (48/100) (24/100)
            ++ edgeAccentColors ep 10 (42/100) (22/100)) = [] ∧ qp ≠ [] then
        [⟨rgbToHex (firstSeen qp).headI, 100, (firstSeen qp).headI⟩]
      else dedupByHex (dominantPass qp mc mp ++ topSaturated sp 8 (48/100) (24/100)
            ++ edgeAccentColors ep 10 (42/100) (22/100))).take 28 := rfl
  rw [hsrc]
  split
  · exact ⟨by simp, by simp, Or.inr ⟨(firstSeen qp).headI, by simp⟩⟩
  · refine ⟨?_, ?_, Or.inl ?_⟩
    · rw [List.length_take]
      exact min_le_left _ _
    · have hmap : ((List.take 28 (dedupByHex (dominantPass qp mc mp
            ++ topSaturated sp 8 (48/100) (24/100)
            ++ edgeAccentColors ep 10 (42/100) (22/100)))).map
              (fun e : PaletteEntry => e.hex)).Sublist
          ((dedupByHex (dominantPass qp mc mp
            ++ topSaturated sp 8 (48/100) (24/100)
            ++ edgeAccentColors ep 10 (42/100) (22/100))).map
              (fun e : PaletteEntry => e.hex)) :=
        (List.take_sublist 28 _).map _
      exact ((dedupByHexGo_nodup [] _).2).sublist hmap
    · exact (List.take_sublist 28 _).trans (dedupByHexGo_sublist [] _)

/-- C8 counterexample input: three quantized pixels, color (4,5,6) twice and
color (1,2,3) once, with a minPercent threshold above every bucket share. -/
def fallbackQuantPixels : List RGB := [(1,2,3), (4,5,6), (4,5,6)]

/-- C8 counterexample: with `minPercent = 200` the dominant pass keeps
nothing and the saturated and edge passes are empty, so the fallback runs; it
returns the first-encountered quantized color (1,2,3) at 100%, not the most
frequent color (4,5,6) that the claim promises. -/
theorem extractPalette_fallback_counterexample :
    (mostCommon fallbackQuantPixels 1).headI = (4,5,6) ∧
    extractPalette fallbackQuantPixels [] [] 16 200 = [⟨"#010203", 100, (1,2,3)⟩] ∧
    extractPalette fallbackQuantPixels [] [] 16 200 ≠
      [⟨rgbToHex ((mostCommon fallbackQuantPixels 1).headI), 100,
        (mostCommon fallbackQuantPixels 1).headI⟩] := by
  have hmost : (mostCommon fallbackQuantPixels 1).headI = (4,5,6) := by decide
  have hcommon : mostCommon fallbackQuantPixels 16 = [(4,5,6), (1,2,3)] := by decide
  have hdom : dominantPass fallbackQuantPixels 16 200 = [] := by
    rw [dominantPass, hcommon]
    have c1 : fallbackQuantPixels.count (4,5,6) = 2 := by decide
    have c2 : fallbackQuantPixels.count (1,2,3) = 1 := by decide
    have l3 : fallbackQuantPixels.length = 3 := by decide
    norm_num [List.filterMap, c1, c2, l3]
  have hpal : extractPalette fallbackQuantPixels [] [] 16 200 =
      [⟨"#010203", 100, (1,2,3)⟩] := by
    unfold extractPalette
    rw [hdom]
    have hsat : topSaturated [] 8 (48/100) (24/100) = [] := by decide
    have hedge : edgeAccentColors [] 10 (42/100) (22/100) = [] := by decide
    rw [hsat, hedge]
    simp only [dedupByHex, dedupByHexGo, List.append_nil, List.nil_append]
    simp [fallbackQuantPixels]
    exact ⟨by decide, by decide⟩
  refine ⟨hmost, hpal, ?_⟩
  rw [hpal, hmost]
  have : rgbToHex ((4:ℕ),(5:ℕ),(6:ℕ)) = "#040506" := by decide
  rw [this]
  simp

/-- C8 amended: when the dominant pass keeps no color and the saturated and
edge passes yield nothing while the quantized pixel list is nonempty,
`extract_palette` returns exactly one entry: the first-encountered quantized
color (the first key of the Counter, in raster order) with percent 100.0. -/
theorem extractPalette_fallback_first_seen (qp sp ep : List RGB) (mc : ℕ) (mp : ℚ)
    (hdom : dominantPass qp mc mp = [])
    (hsat : topSaturated sp 8 (48/100) (24/100) = [])
    (hedge : edgeAccentColors ep 10 (42/100) (22/100) = [])
    (hqp : qp ≠ []) :
    extractPalette qp sp ep mc mp =
      [⟨rgbToHex (firstSeen qp).headI, 100, (firstSeen qp).headI⟩] := by
  unfold extractPalette
  rw [hdom, hsat, hedge]
  simp [dedupByHex, dedupByHexGo, hqp]

/-- Witness for the amended fallback theorem at a one-pixel quantized image
whose 100% bucket still misses the 200% threshold. -/
theorem extractPalette_fallback_first_seen_witness :
    dominantPass [((9:ℕ),(9:ℕ),(9:ℕ))] 16 200 = [] ∧
    topSaturated [] 8 (48/100) (24/100) = [] ∧
    edgeAccentColors [] 10 (42/100) (22/100) = [] ∧
    ([((9:ℕ),(9:ℕ),(9:ℕ))] : List RGB) ≠ [] ∧
    extractPalette [((9:ℕ),(9:ℕ),(9:ℕ))] [] [] 16 200 =
      [⟨rgbToHex (firstSeen [((9:ℕ),(9:ℕ),(9:ℕ))]).headI, 100,
        (firstSeen [((9:ℕ),(9:ℕ),(9:ℕ))]).headI⟩] := by
  have hdom : dominantPass [((9:ℕ),(9:ℕ),(9:ℕ))] 16 200 = [] := by
    have hcommon : mostCommon [((9:ℕ),(9:ℕ),(9:ℕ))] 16 = [(9,9,9)] := by decide
    rw [dominantPass, hcommon]
    norm_num [List.filterMap]
  have hsat : topSaturated [] 8 (48/100) (24/100) = [] := by decide
  have hedge : edgeAccentColors [] 10 (42/100) (22/100) = [] := by decide
  exact ⟨hdom, hsat, hedge, by simp,
    extractPalette_fallback_first_seen _ _ _ _ _ hdom hsat hedge (by simp)⟩


/-- Number of slices cut by the screenshot loop: when
`n*s < H ≤ (n+1)*s` with a positive slice height `s`, the loop runs exactly
`n+1` times. -/
theorem sliceChunks_length (s : ℕ) (hs : 1 ≤ s) :
    ∀ (n H : ℕ), n*s < H → H ≤ (n+1)*s → (sliceChunks s H).length = n+1 := by
  intro n
  induction n with
  | zero =>
    intro H h1 h2
    simp only [Nat.zero_mul, Nat.one_mul] at h1 h2
    rw [sliceChunks, dif_neg (by omega)]
    have hmin : min s H = H := by omega
    rw [hmin, Nat.sub_self, sliceChunks]
    simp
  | succ m ih =>
    intro H h1 h2
    have e1 : (m+1)*s = m*s + s := by ring
    have e2 : (m+2)*s = (m+1)*s + s := by ring
    rw [e1] at h1
    rw [show m+1+1 = m+2 from rfl, e2, e1] at h2
    have hms : 0 ≤ m * s := Nat.zero_le _
    rw [sliceChunks, dif_neg (by omega)]
    have hmin : min s H = s := by omega
    rw [hmin]
    have hrec := ih (H - s) (by omega) (by rw [e1]; omega)
    simp only [List.length_cons, hrec]

/-- Map of the new-page flags over four enumerated slices: the first slice
stays on the current page, the three later ones start new pages. -/
theorem enum_newPage_four (l : List ℕ) (h : l.length = 4) :
    l.enum.map (fun ie => decide (ie.1 ≠ 0)) = [false, true, true, true] := by
  rcases l with _ | ⟨a, l⟩
  · simp at h
  rcases l with _ | ⟨b, l⟩
  · simp at h
  rcases l with _ | ⟨c, l⟩
  · simp at h
  rcases l with _ | ⟨d, l⟩
  · simp at h
  rcases l with _ | ⟨e, l⟩
  · simp [List.enum, List.enumFrom]
  · simp at h

/-- C9 amended: for a screenshot whose height scaled to the usable width is
exactly three times the printable page height (`imgW = 182k`, `imgH = 807k`),
drawn with the page-1 offset of `build_pdf`, the code slices it into chunks of
the FIRST page room height (the `slice_h_pts` conditional is evaluated once,
with the call argument `first_page=True`, not per slice), so the screenshot
spans exactly 4 pages before the score page, not 3; every slice after the
first starts a new page with a repeated header. -/
theorem drawScreenshotSliced_thriceTall (k : ℕ) (hk : 1 ≤ k) :
    ((807*k : ℕ) : ℚ) * ((pageW - 2*marginPt) / ((182*k : ℕ) : ℚ)) =
      3 * (pageH - 2*marginPt) ∧
    (drawScreenshotSliced (182*k) (807*k) buildPdfTopUsed true).map (·.newPage) =
      [false, true, true, true] := by
  have hk0 : ((k : ℚ)) ≠ 0 := Nat.cast_ne_zero.mpr (by omega)
  have hscaled : ((807*k : ℕ) : ℚ) * ((pageW - 2*marginPt) / ((182*k : ℕ) : ℚ)) =
      290520/127 := by
    push_cast
    rw [pageW, marginPt, mmPt]
    field_simp
    ring
  have h3u : (3 : ℚ) * (pageH - 2*marginPt) = 290520/127 := by
    rw [pageH, marginPt, mmPt]; norm_num
  refine ⟨by rw [hscaled, h3u], ?_⟩
  simp only [drawScreenshotSliced]
  rw [hscaled, if_neg (by norm_num [pageH, marginPt, buildPdfTopUsed, mmPt, lineHPt])]
  have hpts : max (1:ℚ) (pageH - 2*marginPt - buildPdfTopUsed) = 87184/127 := by
    rw [max_eq_right] <;> norm_num [pageH, marginPt, buildPdfTopUsed, mmPt, lineHPt]
  simp only [if_true]
  rw [hpts]
  have hquot : (87184/127 : ℚ) / ((pageW - 2*marginPt) / ((182*k : ℕ) : ℚ)) =
      ((87184*k : ℕ) : ℚ) / ((360 : ℕ) : ℚ) := by
    push_cast
    rw [pageW, marginPt, mmPt]
    field_simp
    ring
  rw [hquot]
  have hint : pyIntQ (((87184*k : ℕ) : ℚ) / ((360 : ℕ) : ℚ)) = (((87184*k)/360 : ℕ) : ℤ) := by
    rw [pyIntQ_eq_floor _ (by positivity), Rat.floor_natCast_div_natCast]
    exact (Int.ofNat_div _ _).symm
  rw [hint]
  have hs1 : 1 ≤ (87184*k)/360 := by
    have h242 : (242 : ℕ) = 87184/360 := by norm_num
    have hmul : 87184 ≤ 87184*k := Nat.le_mul_of_pos_right 87184 (by omega)
    have := Nat.div_le_div_right (c := 360) hmul
    omega
  have htoNat : (max 1 (((87184*k)/360 : ℕ) : ℤ)).toNat = (87184*k)/360 := by
    rw [max_eq_right (by exact_mod_cast hs1), Int.toNat_natCast]
  rw [htoNat]
  have hdm := Nat.div_add_mod (87184*k) 360
  have hlt := Nat.mod_lt (87184*k) (show 0 < 360 by norm_num)
  have hlen : (sliceChunks ((87184*k)/360) (807*k)).length = 4 :=
    sliceChunks_length _ hs1 3 _ (by omega) (by omega)
  rw [List.map_map]
  exact enum_newPage_four _ hlen

/-- Witness for the amended slicing theorem at the smallest image with the
exact 3x aspect, 182 x 807 pixels. -/
theorem drawScreenshotSliced_thriceTall_witness :
    1 ≤ 1 ∧
    (((807*1 : ℕ) : ℚ) * ((pageW - 2*marginPt) / ((182*1 : ℕ) : ℚ)) =
      3 * (pageH - 2*marginPt) ∧
    (drawScreenshotSliced (182*1) (807*1) buildPdfTopUsed true).map (·.newPage) =
      [false, true, true, true]) :=
  ⟨le_rfl, drawScreenshotSliced_thriceTall 1 le_rfl⟩

/-- C9 counterexample: a 65520 x 290520 screenshot scales to exactly three
printable page heights, yet `_draw_screenshot_sliced` draws it on 4 pages
(chunks of the first-page room height of about 686.5 pt, not of the full
usable height), contradicting the claimed exactly-3-page rendering. -/
theorem drawScreenshotSliced_threePages_counterexample :
    ((290520 : ℕ) : ℚ) * ((pageW - 2*marginPt) / ((65520 : ℕ) : ℚ)) =
      3 * (pageH - 2*marginPt) ∧
    (drawScreenshotSliced 65520 290520 buildPdfTopUsed true).length = 4 ∧
    (drawScreenshotSliced 65520 290520 buildPdfTopUsed true).length ≠ 3 := by
  have hscaled : ((290520 : ℕ) : ℚ) * ((pageW - 2*marginPt) / ((65520 : ℕ) : ℚ)) =
      290520/127 := by
    rw [pageW, marginPt, mmPt]; norm_num
  have hlen : (drawScreenshotSliced 65520 290520 buildPdfTopUsed true).length = 4 := by
    simp only [drawScreenshotSliced]
    rw [hscaled, if_neg (by norm_num [pageH, marginPt, buildPdfTopUsed, mmPt, lineHPt])]
    simp only [if_true]
    have hpts : max (1:ℚ) (pageH - 2*marginPt - buildPdfTopUsed) = 87184/127 := by
      rw [max_eq_right] <;> norm_num [pageH, marginPt, buildPdfTopUsed, mmPt, lineHPt]
    rw [hpts]
    have hquot : (87184/127 : ℚ) / ((pageW - 2*marginPt) / ((65520 : ℕ) : ℚ)) =
        (87184 : ℚ) := by
      rw [pageW, marginPt, mmPt]; norm_num
    rw [hquot]
    have hint : pyIntQ ((87184 : ℚ)) = 87184 := by
      rw [pyIntQ_eq_floor _ (by norm_num)]; norm_num
    rw [hint]
    have htoNat : (max 1 (87184 : ℤ)).toNat = 87184 := by decide
    rw [htoNat]
    rw [List.length_map, List.enum_length]
    exact sliceChunks_length 87184 (by norm_num) 3 290520 (by norm_num) (by norm_num)
  exact ⟨by rw [hscaled, pageH, marginPt, mmPt]; norm_num, hlen, by rw [hlen]; norm_num⟩

/-- C3 counterexample input 1: a single element carrying only an
`aria-describedby` attribute, which the claimed prefix scan counts and the
CSS-selector count of the code does not. -/
def ariaPrefixPage : List Element := [⟨"div", [("aria-describedby", "x")], ""⟩]

/-- C3 counterexample input 2: seven images, three of them with alt text, so
the alt term is 90/7 and truncation and rounding disagree. -/
def sevenImgsPage : List Element :=
  [⟨"img", [("alt", "y")], ""⟩, ⟨"img", [("alt", "y")], ""⟩, ⟨"img", [("alt", "y")], ""⟩,
   ⟨"img", [], ""⟩, ⟨"img", [], ""⟩, ⟨"img", [], ""⟩, ⟨"img", [], ""⟩]

/-- C3 counterexample: the Accessibility sub-score is 40 on a page whose only
ARIA marking is `aria-describedby` while the claimed formula gives 41 (the
code counts `[aria-label], [role]` elements, not `aria-`-prefixed attribute
names), and it is 52 on seven images with three alts while the claimed
formula rounds 52.857 to 53 (the code truncates). -/
theorem analyzeAccessibility_spec_counterexample :
    analyzeAccessibilityScore ariaPrefixPage = 40 ∧
    specAccessibilityScore ariaPrefixPage = 41 ∧
    analyzeAccessibilityScore sevenImgsPage = 52 ∧
    specAccessibilityScore sevenImgsPage = 53 := by
  refine ⟨?_, ?_, ?_, ?_⟩
  · have c1 : (ariaPrefixPage.filter (fun e => e.tag == "img")).length = 0 := by decide
    have c2 : (ariaPrefixPage.filter (fun e =>
        e.tag == "img" && !(((e.attr? "alt").getD "") == ""))).length = 0 := by decide
    have c3 : (ariaPrefixPage.filter (fun e =>
        e.hasAttr "aria-label" || e.hasAttr "role")).length = 0 := by decide
    have c4 : (ariaPrefixPage.filter (fun e => e.tag == "label")).length = 0 := by decide
    simp only [analyzeAccessibilityScore, c1, c2, c3, c4]
    rw [pyIntQ_eq_floor _ (by norm_num)]
    norm_num
  · have c1 : (ariaPrefixPage.filter (fun e => e.tag == "img")).length = 0 := by decide
    have c2 : (ariaPrefixPage.filter (fun e =>
        e.tag == "img" && !(((e.attr? "alt").getD "") == ""))).length = 0 := by decide
    have c3 : ariaAttrCount ariaPrefixPage = 1 := by decide
    have c4 : roleCount ariaPrefixPage = 0 := by decide
    have c5 : labelCount ariaPrefixPage = 0 := by decide
    simp only [specAccessibilityScore, c1, c2, c3, c4, c5]
    norm_num [pyRound]
  · have c1 : (sevenImgsPage.filter (fun e => e.tag == "img")).length = 7 := by decide
    have c2 : (sevenImgsPage.filter (fun e =>
        e.tag == "img" && !(((e.attr? "alt").getD "") == ""))).length = 3 := by decide
    have c3 : (sevenImgsPage.filter (fun e =>
        e.hasAttr "aria-label" || e.hasAttr "role")).length = 0 := by decide
    have c4 : (sevenImgsPage.filter (fun e => e.tag == "label")).length = 0 := by decide
    simp only [analyzeAccessibilityScore, c1, c2, c3, c4]
    rw [pyIntQ_eq_floor _ (by norm_num)]
    norm_num
  · have c1 : (sevenImgsPage.filter (fun e => e.tag == "img")).length = 7 := by decide
    have c2 : (sevenImgsPage.filter (fun e =>
        e.tag == "img" && !(((e.attr? "alt").getD "") == ""))).length = 3 := by decide
    have c3 : ariaAttrCount sevenImgsPage = 0 := by decide
    have c4 : roleCount sevenImgsPage = 0 := by decide
    have c5 : labelCount sevenImgsPage = 0 := by decide
    simp only [specAccessibilityScore, c1, c2, c3, c4, c5]
    norm_num [pyRound, Int.floor_eq_iff]

/-- C3 amended: the Accessibility sub-score (also as it appears in the
`make_scores` breakdown) equals
`clamp(0,100, trunc(40 + min(30,(imagesWithAlt/max(1,totalImages))*30) +
min(30, ariaLabelOrRoleElementCount + labelCount)))`, where the ARIA term
counts elements that carry an `aria-label` or a `role` attribute (exact
attribute names, an element with both counted once), not `aria-`-prefixed
attribute names, and the fractional score is truncated, not rounded. -/
theorem analyzeAccessibility_amended (pixels : List RGB) (page : Html) (w : Weights) :
    (makeScores pixels page w).breakdown.accessibility =
      (analyzeAccessibilityScore page.elements : ℚ) ∧
    analyzeAccessibilityScore page.elements =
      max 0 (min 100 (pyIntQ (40
        + min 30 ((((page.elements.filter (fun e =>
              e.tag == "img" && !(((e.attr? "alt").getD "") == ""))).length : ℚ)
            / ((max 1 (page.elements.filter (fun e => e.tag == "img")).length : ℕ) : ℚ)) * 30)
        + min 30 (((page.elements.filter (fun e =>
              e.hasAttr "aria-label" || e.hasAttr "role")).length : ℚ)
            + ((page.elements.filter (fun e => e.tag == "label")).length : ℚ))))) :=
  ⟨rfl, rfl⟩

/-- C4 counterexample input: the word `viewport` appears only as text (no
viewport meta element) and the only breakpoint hint is one `sm:` class. -/
def respPage : Html :=
  ⟨"<p>viewport</p><div class=\x22sm:flex\x22></div>",
   [⟨"p", [], "viewport"⟩, ⟨"div", [("class", "sm:flex")], ""⟩]⟩

/-- C4 counterexample: the code scores this page 75 (substring `viewport`
matches even without a meta tag; `sm:` is not counted because only `md:` and
`@media` are), while the claimed formula gives 40.5 (no viewport meta tag, so
-10, and the `sm:` hint contributes 0.5). -/
theorem analyzeResponsive_spec_counterexample :
    analyzeResponsiveScore respPage.raw = 75 ∧
    specResponsiveScore respPage = 81/2 ∧
    (75 : ℚ) ≠ 81/2 := by
  refine ⟨?_, ?_, by norm_num⟩
  · have hv : listContains (lowerData respPage.raw) "viewport".data = true := by decide
    have h1 : countOcc "md:".data respPage.raw.data = 0 := by decide
    have h2 : countOcc "@media".data respPage.raw.data = 0 := by decide
    simp only [analyzeResponsiveScore, hv, h1, h2]
    norm_num
  · have hv : hasViewportMeta respPage.elements = false := by decide
    have hh : specHintCount respPage.elements = 1 := by decide
    simp only [specResponsiveScore, hv, hh]
    norm_num

/-- C4 amended: the Responsive sub-score (also as it appears in the
`make_scores` breakdown) equals
`clamp(0,100, 50 + (25 if the substring "viewport" occurs in the lowercased
raw HTML else -10) + min(35, hintCount*0.5))` where `hintCount` counts only
the occurrences of `md:` and of `@media` in the raw HTML text; the other
breakpoint names and the viewport meta tag play no role in the score. -/
theorem analyzeResponsive_amended (pixels : List RGB) (page : Html) (w : Weights) :
    (makeScores pixels page w).breakdown.responsive = analyzeResponsiveScore page.raw ∧
    analyzeResponsiveScore page.raw =
      max 0 (min 100 (50
        + (if listContains (lowerData page.raw) "viewport".data then 25 else -10)
        + min 35 (((countOcc "md:".data page.raw.data
            + countOcc "@media".data page.raw.data : ℕ) : ℚ) * (1/2)))) :=
  ⟨rfl, rfl⟩

/-- On the linear branch (channel value at most 10, so `c/255 ≤ 0.03928`),
the linearised channel is `c/255/12.92`. -/
theorem linearChannel_small (c : ℕ) (h : (c : ℝ)/255 ≤ 0.03928) :
    linearChannel c = ((c : ℝ)/255)/12.92 := if_pos h

/-- Relative luminance of the pure dark red pixel (10,0,0). -/
theorem lum_red : relativeLuminance (10,0,0) = 1063/1647300 := by
  have l10 : linearChannel 10 = ((10 : ℝ)/255)/12.92 :=
    linearChannel_small 10 (by norm_num)
  have l0 : linearChannel 0 = 0 := by
    rw [linearChannel_small 0 (by norm_num)]; norm_num
  simp only [relativeLuminance]
  norm_num [l10, l0]

/-- Relative luminance of the pure dark blue pixel (0,0,10). -/
theorem lum_blue : relativeLuminance (0,0,10) = 361/1647300 := by
  have l10 : linearChannel 10 = ((10 : ℝ)/255)/12.92 :=
    linearChannel_small 10 (by norm_num)
  have l0 : linearChannel 0 = 0 := by
    rw [linearChannel_small 0 (by norm_num)]; norm_num
  simp only [relativeLuminance]
  norm_num [l10, l0]

/-- Standard deviation of a two-block list: `m` copies of `a` followed by `n`
copies of `b` with `m*n` a perfect square `s*s` have standard deviation
`s*(a-b)/(m+n)`. -/
theorem npStd_two_blocks (m n s : ℕ) (a b : ℝ) (hs : m*n = s*s)
    (hpos : 0 < m + n) (hab : b ≤ a) :
    npStd (List.replicate m a ++ List.replicate n b) = (s : ℝ) * (a - b) / ((m : ℝ) + n) := by
  have hposR : (0 : ℝ) < (m : ℝ) + n := by exact_mod_cast hpos
  have hN : ((m : ℝ) + n) ≠ 0 := ne_of_gt hposR
  have hmn : (m : ℝ) * n = (s : ℝ) * s := by exact_mod_cast hs
  unfold npStd npMean
  simp only [List.map_append, List.map_replicate, List.sum_append, List.sum_replicate,
    List.length_append, List.length_replicate, nsmul_eq_mul, Nat.cast_add]
  have h1 : a - ((m : ℝ) * a + n * b) / ((m : ℝ) + n) = (n : ℝ) * (a - b) / ((m : ℝ) + n) := by
    field_simp
    ring
  have h2 : b - ((m : ℝ) * a + n * b) / ((m : ℝ) + n) = -((m : ℝ) * (a - b) / ((m : ℝ) + n)) := by
    field_simp
    ring
  rw [h1, h2]
  have key : ((m : ℝ) * ((n : ℝ) * (a - b) / ((m : ℝ) + n)) ^ 2
      + (n : ℝ) * (-((m : ℝ) * (a - b) / ((m : ℝ) + n))) ^ 2) / ((m : ℝ) + n)
      = ((m : ℝ) * n) * ((a - b) / ((m : ℝ) + n)) ^ 2 := by
    field_simp
    ring
  have key2 : ((m : ℝ) * n) * ((a - b) / ((m : ℝ) + n)) ^ 2
      = ((s : ℝ) * (a - b) / ((m : ℝ) + n)) ^ 2 := by
    rw [hmn]
    ring
  rw [key, key2]
  exact Real.sqrt_sq (div_nonneg
    (mul_nonneg (Nat.cast_nonneg s) (sub_nonneg.mpr hab)) (le_of_lt hposR))

/-- C1 counterexample image (downscaled pixels): four dark-red pixels. -/
def pixelsC1 : List RGB := List.replicate 4 (10,0,0)

/-- C2 counterexample image A: 900 dark-red and 100 dark-blue pixels
(the 900*100 = 300^2 split keeps the standard deviation rational). -/
def pixelsA : List RGB := List.replicate 900 (10,0,0) ++ List.replicate 100 (0,0,10)

/-- C2 counterexample image B: 676 dark-red pixels and a single dark-blue one
(676 = 26^2; the lone pixel separates from the two diversity thresholds). -/
def pixelsB : List RGB := List.replicate 676 (10,0,0) ++ List.replicate 1 (0,0,10)

/-- Contrast of the uniform image is zero. -/
theorem contrast_C1 : imageContrast pixelsC1 = 0 := by
  have h : pixelsC1 = List.replicate 4 ((10,0,0) : RGB) ++ List.replicate 0 ((0,0,10) : RGB) := by
    simp [pixelsC1]
  rw [imageContrast, h]
  simp only [List.map_append, List.map_replicate]
  rw [npStd_two_blocks 4 0 0 _ _ (by norm_num) (by norm_num)
    (by rw [lum_red, lum_blue]; norm_num)]
  norm_num

/-- Contrast of image A: `300 * (lumRed - lumBlue) / 1000`. -/
theorem contrast_A : imageContrast pixelsA = 702/5491000 := by
  rw [imageContrast, pixelsA]
  simp only [List.map_append, List.map_replicate]
  rw [npStd_two_blocks 900 100 300 _ _ (by norm_num) (by norm_num)
    (by rw [lum_red, lum_blue]; norm_num)]
  rw [lum_red, lum_blue]
  norm_num

/-- Contrast of image B: `26 * (lumRed - lumBlue) / 677`. -/
theorem contrast_B : imageContrast pixelsB = 18252/1115222100 := by
  rw [imageContrast, pixelsB]
  simp only [List.map_append, List.map_replicate]
  rw [npStd_two_blocks 676 1 26 _ _ (by norm_num) (by norm_num)
    (by rw [lum_red, lum_blue]; norm_num)]
  rw [lum_red, lum_blue]
  norm_num

/-- The dark-red pixel lands in hue-histogram bin 0. -/
theorem hueBin_red : hueBinIndex (pilHue (10,0,0)) = 0 := by
  have h : pilHue (10,0,0) = 0 := by
    simp only [pilHue]
    norm_num
  rw [h]
  rfl

/-- The dark-blue pixel lands in hue-histogram bin 8 (PIL hue value 170). -/
theorem hueBin_blue : hueBinIndex (pilHue (0,0,10)) = 8 := by
  have h : pilHue (0,0,10) = 170 := by
    have ht : Int.toNat 170 = 170 := rfl
    simp only [pilHue]
    norm_num [ht]
  rw [h]
  rfl

/-- Bin population of a two-block pixel list. -/
theorem hueBinCount_two_blocks (m n : ℕ) (A B : RGB) (i : ℕ) :
    hueBinCount (List.replicate m A ++ List.replicate n B) i =
      (if hueBinIndex (pilHue A) = i then m else 0) +
      (if hueBinIndex (pilHue B) = i then n else 0) := by
  unfold hueBinCount
  simp only [List.filter_append, List.length_append, List.filter_replicate,
    decide_eq_true_eq]
  split_ifs <;> simp

/-- Code-side hue diversity of image A: both bins clear the 0.05%-of-array
threshold (1.5 of 1000 pixels), giving 2 of 12 bins. -/
theorem hueDiversity_A : hueDiversity pixelsA = 2/12 := by
  have hbin : ∀ i, hueBinCount pixelsA i =
      (if 0 = i then 900 else 0) + (if 8 = i then 100 else 0) := fun i => by
    rw [pixelsA, hueBinCount_two_blocks, hueBin_red, hueBin_blue]
  have hlen : pixelsA.length = 1000 := by
    rw [pixelsA, List.length_append, List.length_replicate, List.length_replicate]
  simp only [hueDiversity, hbin, hlen,
    show List.range 12 = [0,1,2,3,4,5,6,7,8,9,10,11] from rfl]
  norm_num [List.filter]

/-- Code-side hue diversity of image B: the lone blue pixel misses the
0.05%-of-array threshold (1.0155 of 677 pixels), giving 1 of 12 bins. -/
theorem hueDiversity_B : hueDiversity pixelsB = 1/12 := by
  have hbin : ∀ i, hueBinCount pixelsB i =
      (if 0 = i then 676 else 0) + (if 8 = i then 1 else 0) := fun i => by
    rw [pixelsB, hueBinCount_two_blocks, hueBin_red, hueBin_blue]
  have hlen : pixelsB.length = 677 := by
    rw [pixelsB, List.length_append, List.length_replicate, List.length_replicate]
  simp only [hueDiversity, hbin, hlen,
    show List.range 12 = [0,1,2,3,4,5,6,7,8,9,10,11] from rfl]
  norm_num [List.filter]

/-- Code-side hue diversity of the uniform image: one populated bin. -/
theorem hueDiversity_C1 : hueDiversity pixelsC1 = 1/12 := by
  have hC1 : pixelsC1 = List.replicate 4 ((10,0,0) : RGB) ++ List.replicate 0 ((0,0,10) : RGB) := by
    simp [pixelsC1]
  have hbin : ∀ i, hueBinCount pixelsC1 i =
      (if 0 = i then 4 else 0) + (if 8 = i then 0 else 0) := fun i => by
    rw [hC1, hueBinCount_two_blocks, hueBin_red, hueBin_blue]
  have hlen : pixelsC1.length = 4 := by rw [pixelsC1, List.length_replicate]
  simp only [hueDiversity, hbin, hlen,
    show List.range 12 = [0,1,2,3,4,5,6,7,8,9,10,11] from rfl]
  norm_num [List.filter]

/-- Spec-side hue diversity of image A (threshold 0.05% of the pixel count):
also 2 of 12 bins. -/
theorem specDiversity_A :
    (((List.range 12).filter (fun i =>
      (hueBinCount pixelsA i : ℚ) > (pixelsA.length : ℚ) * (5/10000))).length : ℚ) / 12
    = 2/12 := by
  have hbin : ∀ i, hueBinCount pixelsA i =
      (if 0 = i then 900 else 0) + (if 8 = i then 100 else 0) := fun i => by
    rw [pixelsA, hueBinCount_two_blocks, hueBin_red, hueBin_blue]
  have hlen : pixelsA.length = 1000 := by
    rw [pixelsA, List.length_append, List.length_replicate, List.length_replicate]
  simp only [hbin, hlen, show List.range 12 = [0,1,2,3,4,5,6,7,8,9,10,11] from rfl]
  norm_num [List.filter]

/-- Spec-side hue diversity of image B: the lone blue pixel clears the
0.05%-of-pixels threshold (0.3385 of 677), giving 2 of 12 bins - unlike the
code's 0.05%-of-array threshold. -/
theorem specDiversity_B :
    (((List.range 12).filter (fun i =>
      (hueBinCount pixelsB i : ℚ) > (pixelsB.length : ℚ) * (5/10000))).length : ℚ) / 12
    = 2/12 := by
  have hbin : ∀ i, hueBinCount pixelsB i =
      (if 0 = i then 676 else 0) + (if 8 = i then 1 else 0) := fun i => by
    rw [pixelsB, hueBinCount_two_blocks, hueBin_red, hueBin_blue]
  have hlen : pixelsB.length = 677 := by
    rw [pixelsB, List.length_append, List.length_replicate, List.length_replicate]
  simp only [hbin, hlen, show List.range 12 = [0,1,2,3,4,5,6,7,8,9,10,11] from rfl]
  norm_num [List.filter]

/-- Code-side Color & Contrast score of image A: the raw value 6.6897 is
truncated to 6. -/
theorem colorScore_A : colorScoreOf pixelsA = 6 := by
  simp only [colorScoreOf, analyzeImageColors]
  rw [contrast_A, hueDiversity_A]
  have hclamp : min (100:ℝ) (max 0 ((702/5491000 : ℝ) * 180 + ((2/12 : ℚ) : ℝ) * 40)) =
      (702/5491000 : ℝ) * 180 + ((2/12 : ℚ) : ℝ) * 40 := by
    rw [max_eq_right (by norm_num), min_eq_right (by norm_num)]
  simp only [pyIntR]
  rw [hclamp, if_neg (by norm_num)]
  norm_num

/-- Spec-side Color & Contrast score of image A: the raw value 6.6897 is
rounded to 7. -/
theorem specColorScore_A : specColorScore pixelsA = 7 := by
  simp only [specColorScore, imageContrast]
  rw [specDiversity_A, show npStd (pixelsA.map relativeLuminance) = 702/5491000 from contrast_A]
  rw [show round ((702/5491000 : ℝ) * 180 + ((2/12 : ℚ) : ℝ) * 40) = 7 by
    rw [round_eq]; norm_num]
  norm_num

/-- Code-side Color & Contrast score of image B: diversity 1/12, raw value
3.3363, truncated to 3. -/
theorem colorScore_B : colorScoreOf pixelsB = 3 := by
  simp only [colorScoreOf, analyzeImageColors]
  rw [contrast_B, hueDiversity_B]
  have hclamp : min (100:ℝ) (max 0 ((18252/1115222100 : ℝ) * 180 + ((1/12 : ℚ) : ℝ) * 40)) =
      (18252/1115222100 : ℝ) * 180 + ((1/12 : ℚ) : ℝ) * 40 := by
    rw [max_eq_right (by norm_num), min_eq_right (by norm_num)]
  simp only [pyIntR]
  rw [hclamp, if_neg (by norm_num)]
  norm_num

/-- Spec-side Color & Contrast score of image B: diversity 2/12, raw value
6.6696, rounded to 7. -/
theorem specColorScore_B : specColorScore pixelsB = 7 := by
  simp only [specColorScore, imageContrast]
  rw [specDiversity_B, show npStd (pixelsB.map relativeLuminance) = 18252/1115222100 from contrast_B]
  rw [show round ((18252/1115222100 : ℝ) * 180 + ((2/12 : ℚ) : ℝ) * 40) = 7 by
    rw [round_eq]; norm_num]
  norm_num

/-- Code-side Color & Contrast score of the uniform image: zero contrast,
diversity 1/12, truncated to 3. -/
theorem colorScore_C1 : colorScoreOf pixelsC1 = 3 := by
  simp only [colorScoreOf, analyzeImageColors]
  rw [contrast_C1, hueDiversity_C1]
  have hclamp : min (100:ℝ) (max 0 ((0 : ℝ) * 180 + ((1/12 : ℚ) : ℝ) * 40)) =
      (0 : ℝ) * 180 + ((1/12 : ℚ) : ℝ) * 40 := by
    rw [max_eq_right (by norm_num), min_eq_right (by norm_num)]
  simp only [pyIntR]
  rw [hclamp, if_neg (by norm_num)]
  norm_num

/-- C2 counterexample: on image A both sides see diversity 2/12 but the code
truncates 6.6897 to 6 while the claimed formula rounds it to 7; on image B
the code's 0.05%-of-array-size threshold (3x the pixel count) drops the lone
blue pixel's bin (score 3) while the claimed 0.05%-of-pixels threshold keeps
it (score 7). -/
theorem colorScore_spec_counterexample :
    colorScoreOf pixelsA = 6 ∧ specColorScore pixelsA = 7 ∧
    colorScoreOf pixelsB = 3 ∧ specColorScore pixelsB = 7 ∧
    colorScoreOf pixelsA ≠ specColorScore pixelsA ∧
    colorScoreOf pixelsB ≠ specColorScore pixelsB :=
  ⟨colorScore_A, specColorScore_A, colorScore_B, specColorScore_B,
    by rw [colorScore_A, specColorScore_A]; decide,
    by rw [colorScore_B, specColorScore_B]; decide⟩

/-- C2 amended: the Color & Contrast sub-score (also as it appears in the
`make_scores` breakdown) equals
`trunc(clamp(0,100, contrast*180 + diversity*40))` - truncated by `int()`
rather than rounded - where contrast is the standard deviation of per-pixel
relative luminance of the downscaled image and diversity is the fraction of
the 12 hue bins whose pixel count exceeds 0.05% of the size of the H x W x 3
array, i.e. 0.15% of the pixel count (`hueDiversity`), not 0.05% of the pixel
count. -/
theorem colorScore_amended (pixels : List RGB) (page : Html) (w : Weights) :
    (makeScores pixels page w).breakdown.colorContrast = (colorScoreOf pixels : ℚ) ∧
    colorScoreOf pixels =
      pyIntR (min 100 (max 0 (npStd (pixels.map relativeLuminance) * 180
        + ((hueDiversity pixels : ℚ) : ℝ) * 40))) :=
  ⟨rfl, rfl⟩

/-- Range of the clamp pattern of the rational analyzers. -/
theorem clampQ_range (s : ℚ) : 0 ≤ max 0 (min 100 s) ∧ max 0 (min 100 s) ≤ 100 :=
  ⟨le_max_left 0 _, max_le (by norm_num) (min_le_left _ _)⟩

/-- Range of the clamp pattern of the accessibility analyzer. -/
theorem clampZ_range (s : ℤ) : 0 ≤ max 0 (min 100 s) ∧ max 0 (min 100 s) ≤ 100 :=
  ⟨le_max_left 0 _, max_le (by norm_num) (min_le_left _ _)⟩

/-- The Color & Contrast sub-score always lies in [0,100]. -/
theorem colorScore_range (pixels : List RGB) :
    0 ≤ colorScoreOf pixels ∧ colorScoreOf pixels ≤ 100 := by
  unfold colorScoreOf pyIntR
  set t := (analyzeImageColors pixels).1 * 180 + ((analyzeImageColors pixels).2 : ℝ) * 40
  have h0 : (0 : ℝ) ≤ min 100 (max 0 t) := le_min (by norm_num) (le_max_left 0 t)
  rw [if_neg (not_lt.mpr h0)]
  constructor
  · exact Int.le_floor.mpr (by exact_mod_cast h0)
  · have := Int.floor_le_floor (min_le_left (100 : ℝ) (max 0 t))
    simpa using this

/-- C1 amended: for every image, page and weight mapping with all five
nonnegative weights summing to 1, the overall score of `make_scores` equals
the weighted sum of the five sub-scores truncated towards zero by `int()` -
not rounded, and never clamped - and, because each sub-score lies in [0,100],
the overall score lies in [0,100]. -/
theorem makeScores_overall_amended (pixels : List RGB) (page : Html) (w : Weights)
    (h1 : 0 ≤ w.typography) (h2 : 0 ≤ w.colorContrast) (h3 : 0 ≤ w.layoutStructure)
    (h4 : 0 ≤ w.responsive) (h5 : 0 ≤ w.accessibility)
    (hsum : w.typography + w.colorContrast + w.layoutStructure
      + w.responsive + w.accessibility = 1) :
    (makeScores pixels page w).overall =
      pyIntQ (analyzeTypographyScore page.elements * w.typography
        + (colorScoreOf pixels : ℚ) * w.colorContrast
        + analyzeLayoutScore page.elements * w.layoutStructure
        + analyzeResponsiveScore page.raw * w.responsive
        + (analyzeAccessibilityScore page.elements : ℚ) * w.accessibility) ∧
    0 ≤ (makeScores pixels page w).overall ∧
    (makeScores pixels page w).overall ≤ 100 := by
  have bt := clampQ_range ((50 : ℚ)
    + (if page.elements.any (fun e => e.tag == "h1") then 10 else -10)
    + (if page.elements.any (fun e => e.tag == "h2") then 8 else 0)
    + min 20 (((page.elements.filter (fun e => isHeadingTag e.tag)).length : ℚ) * 3)
    + min 20 (((page.elements.filter (fun e =>
        listContains e.styleStr.data "font-size".data ||
        listContains e.classStr.data "text-".data)).length : ℚ) * (1/2)))
  have hbt : 0 ≤ analyzeTypographyScore page.elements ∧
      analyzeTypographyScore page.elements ≤ 100 := bt
  have hbl : 0 ≤ analyzeLayoutScore page.elements ∧
      analyzeLayoutScore page.elements ≤ 100 := clampQ_range _
  have hbr : 0 ≤ analyzeResponsiveScore page.raw ∧
      analyzeResponsiveScore page.raw ≤ 100 := clampQ_range _
  have hbaZ : 0 ≤ analyzeAccessibilityScore page.elements ∧
      analyzeAccessibilityScore page.elements ≤ 100 := clampZ_range _
  have hba : 0 ≤ ((analyzeAccessibilityScore page.elements : ℤ) : ℚ) ∧
      ((analyzeAccessibilityScore page.elements : ℤ) : ℚ) ≤ 100 := by
    constructor
    · exact_mod_cast hbaZ.1
    · exact_mod_cast hbaZ.2
  have hbcZ := colorScore_range pixels
  have hbc : 0 ≤ ((colorScoreOf pixels : ℤ) : ℚ) ∧ ((colorScoreOf pixels : ℤ) : ℚ) ≤ 100 := by
    constructor
    · exact_mod_cast hbcZ.1
    · exact_mod_cast hbcZ.2
  set S : ℚ := analyzeTypographyScore page.elements * w.typography
    + (colorScoreOf pixels : ℚ) * w.colorContrast
    + analyzeLayoutScore page.elements * w.layoutStructure
    + analyzeResponsiveScore page.raw * w.responsive
    + (analyzeAccessibilityScore page.elements : ℚ) * w.accessibility with hSdef
  have hS0 : 0 ≤ S := by
    have := mul_nonneg hbt.1 h1
    have := mul_nonneg hbc.1 h2
    have := mul_nonneg hbl.1 h3
    have := mul_nonneg hbr.1 h4
    have := mul_nonneg hba.1 h5
    rw [hSdef]
    positivity
  have hS100 : S ≤ 100 := by
    have t1 := mul_le_mul_of_nonneg_right hbt.2 h1
    have t2 := mul_le_mul_of_nonneg_right hbc.2 h2
    have t3 := mul_le_mul_of_nonneg_right hbl.2 h3
    have t4 := mul_le_mul_of_nonneg_right hbr.2 h4
    have t5 := mul_le_mul_of_nonneg_right hba.2 h5
    calc S ≤ 100 * w.typography + 100 * w.colorContrast + 100 * w.layoutStructure
        + 100 * w.responsive + 100 * w.accessibility := by
          rw [hSdef]
          exact add_le_add (add_le_add (add_le_add (add_le_add t1 t2) t3) t4) t5
      _ = 100 * (w.typography + w.colorContrast + w.layoutStructure
          + w.responsive + w.accessibility) := by ring
      _ = 100 := by rw [hsum]; norm_num
  refine ⟨rfl, ?_, ?_⟩
  · show 0 ≤ pyIntQ S
    rw [pyIntQ_eq_floor S hS0]
    exact Int.le_floor.mpr (by exact_mod_cast hS0)
  · show pyIntQ S ≤ 100
    rw [pyIntQ_eq_floor S hS0]
    have := Int.floor_le_floor hS100
    simpa using this

/-- Empty page: no HTML text, no elements. -/
def emptyPage : Html := ⟨"", []⟩

/-- Uniform weights 1/5 for each category (a valid configuration summing
to 1). -/
def fifthWeights : Weights := ⟨1/5, 1/5, 1/5, 1/5, 1/5⟩

/-- Witness for the amended overall-score theorem at the uniform image, the
empty page and uniform weights. -/
theorem makeScores_overall_amended_witness :
    (0 ≤ fifthWeights.typography) ∧ (0 ≤ fifthWeights.colorContrast) ∧
    (0 ≤ fifthWeights.layoutStructure) ∧ (0 ≤ fifthWeights.responsive) ∧
    (0 ≤ fifthWeights.accessibility) ∧
    (fifthWeights.typography + fifthWeights.colorContrast + fifthWeights.layoutStructure
      + fifthWeights.responsive + fifthWeights.accessibility = 1) ∧
    ((makeScores pixelsC1 emptyPage fifthWeights).overall =
      pyIntQ (analyzeTypographyScore emptyPage.elements * fifthWeights.typography
        + (colorScoreOf pixelsC1 : ℚ) * fifthWeights.colorContrast
        + analyzeLayoutScore emptyPage.elements * fifthWeights.layoutStructure
        + analyzeResponsiveScore emptyPage.raw * fifthWeights.responsive
        + (analyzeAccessibilityScore emptyPage.elements : ℚ) * fifthWeights.accessibility) ∧
    0 ≤ (makeScores pixelsC1 emptyPage fifthWeights).overall ∧
    (makeScores pixelsC1 emptyPage fifthWeights).overall ≤ 100) :=
  ⟨by norm_num [fifthWeights], by norm_num [fifthWeights], by norm_num [fifthWeights],
   by norm_num [fifthWeights], by norm_num [fifthWeights], by norm_num [fifthWeights],
   makeScores_overall_amended pixelsC1 emptyPage fifthWeights
     (by norm_num [fifthWeights]) (by norm_num [fifthWeights]) (by norm_num [fifthWeights])
     (by norm_num [fifthWeights]) (by norm_num [fifthWeights]) (by norm_num [fifthWeights])⟩

/-- Typography score of the empty page. -/
theorem typography_empty : analyzeTypographyScore ([] : List Element) = 40 := by
  norm_num [analyzeTypographyScore]

/-- Layout score of the empty page. -/
theorem layout_empty : analyzeLayoutScore ([] : List Element) = 40 := by
  norm_num [analyzeLayoutScore]

/-- Responsive score of the empty HTML text. -/
theorem responsive_empty : analyzeResponsiveScore "" = 40 := by
  have hv : listContains (lowerData "") "viewport".data = false := by decide
  have hm1 : countOcc "md:".data ("" : String).data = 0 := by decide
  have hm2 : countOcc "@media".data ("" : String).data = 0 := by decide
  simp only [analyzeResponsiveScore, hv, hm1, hm2]
  norm_num

/-- Accessibility score of the empty page. -/
theorem accessibility_empty : analyzeAccessibilityScore ([] : List Element) = 40 := by
  simp only [analyzeAccessibilityScore, List.filter_nil, List.length_nil]
  rw [pyIntQ_eq_floor _ (by norm_num)]
  norm_num

/-- C1 counterexample: on the uniform four-pixel image with an empty page and
uniform 1/5 weights, the sub-scores are (40, 3, 40, 40, 40), their weighted
sum is 32.6, and `make_scores` returns int(32.6) = 32, while the claimed
round-then-clamp formula gives 33. -/
theorem makeScores_overall_counterexample :
    (makeScores pixelsC1 emptyPage fifthWeights).overall = 32 ∧
    min 100 (max 0 (pyRound
      ((makeScores pixelsC1 emptyPage fifthWeights).breakdown.typography
          * fifthWeights.typography
        + (makeScores pixelsC1 emptyPage fifthWeights).breakdown.colorContrast
          * fifthWeights.colorContrast
        + (makeScores pixelsC1 emptyPage fifthWeights).breakdown.layoutStructure
          * fifthWeights.layoutStructure
        + (makeScores pixelsC1 emptyPage fifthWeights).breakdown.responsive
          * fifthWeights.responsive
        + (makeScores pixelsC1 emptyPage fifthWeights).breakdown.accessibility
          * fifthWeights.accessibility))) = 33 ∧
    (makeScores pixelsC1 emptyPage fifthWeights).overall ≠
    min 100 (max 0 (pyRound
      ((makeScores pixelsC1 emptyPage fifthWeights).breakdown.typography
          * fifthWeights.typography
        + (makeScores pixelsC1 emptyPage fifthWeights).breakdown.colorContrast
          * fifthWeights.colorContrast
        + (makeScores pixelsC1 emptyPage fifthWeights).breakdown.layoutStructure
          * fifthWeights.layoutStructure
        + (makeScores pixelsC1 emptyPage fifthWeights).breakdown.responsive
          * fifthWeights.responsive
        + (makeScores pixelsC1 emptyPage fifthWeights).breakdown.accessibility
          * fifthWeights.accessibility))) := by
  have hS : analyzeTypographyScore emptyPage.elements * fifthWeights.typography
      + (colorScoreOf pixelsC1 : ℚ) * fifthWeights.colorContrast
      + analyzeLayoutScore emptyPage.elements * fifthWeights.layoutStructure
      + analyzeResponsiveScore emptyPage.raw * fifthWeights.responsive
      + (analyzeAccessibilityScore emptyPage.elements : ℚ) * fifthWeights.accessibility
      = 163/5 := by
    show analyzeTypographyScore [] * fifthWeights.typography
      + (colorScoreOf pixelsC1 : ℚ) * fifthWeights.colorContrast
      + analyzeLayoutScore [] * fifthWeights.layoutStructure
      + analyzeResponsiveScore "" * fifthWeights.responsive
      + (analyzeAccessibilityScore [] : ℚ) * fifthWeights.accessibility = 163/5
    rw [typography_empty, layout_empty, responsive_empty, accessibility_empty, colorScore_C1]
    norm_num [fifthWeights]
  have hoverall : (makeScores pixelsC1 emptyPage fifthWeights).overall = 32 := by
    show pyIntQ (analyzeTypographyScore emptyPage.elements * fifthWeights.typography
      + (colorScoreOf pixelsC1 : ℚ) * fifthWeights.colorContrast
      + analyzeLayoutScore emptyPage.elements * fifthWeights.layoutStructure
      + analyzeResponsiveScore emptyPage.raw * fifthWeights.responsive
      + (analyzeAccessibilityScore emptyPage.elements : ℚ) * fifthWeights.accessibility) = 32
    rw [hS, pyIntQ_eq_floor _ (by norm_num)]
    norm_num
  have hclaim : min 100 (max 0 (pyRound
      ((makeScores pixelsC1 emptyPage fifthWeights).breakdown.typography
          * fifthWeights.typography
        + (makeScores pixelsC1 emptyPage fifthWeights).breakdown.colorContrast
          * fifthWeights.colorContrast
        + (makeScores pixelsC1 emptyPage fifthWeights).breakdown.layoutStructure
          * fifthWeights.layoutStructure
        + (makeScores pixelsC1 emptyPage fifthWeights).breakdown.responsive
          * fifthWeights.responsive
        + (makeScores pixelsC1 emptyPage fifthWeights).breakdown.accessibility
          * fifthWeights.accessibility))) = 33 := by
    have hB : (makeScores pixelsC1 emptyPage fifthWeights).breakdown.typography
          * fifthWeights.typography
        + (makeScores pixelsC1 emptyPage fifthWeights).breakdown.colorContrast
          * fifthWeights.colorContrast
        + (makeScores pixelsC1 emptyPage fifthWeights).breakdown.layoutStructure
          * fifthWeights.layoutStructure
        + (makeScores pixelsC1 emptyPage fifthWeights).breakdown.responsive
          * fifthWeights.responsive
        + (makeScores pixelsC1 emptyPage fifthWeights).breakdown.accessibility
          * fifthWeights.accessibility = 163/5 := hS
    rw [hB]
    have hround : pyRound (163/5) = 33 := by
      rw [pyRound]
      norm_num
    rw [hround]
    norm_num
  exact ⟨hoverall, hclaim, by rw [hoverall, hclaim]; decide⟩
